import Mathlib

/-!
Verification development for the `spotfilling` repository.

Shallow embedding of:
  * `src/src/spotfilling.C` — the `SPOTFILLING::filling` overlay stage;
  * `src/src/runDGCPM.C` — the event-scheduling main loop.

Machine `float`/`double` arithmetic is embedded over `ℚ`; the libm functions
`sin` and `sqrt`, the constant `M_PI`, the injected saturation curve, and the
baseline `FILLING::filling` collaborator (which lives in a submodule, outside
this repository's sources) are abstract parameters of the embedding, so every
theorem below holds for the actual floating-point functions as well as for any
other interpretation.
-/

namespace Spotfilling

/-- A DGCPM `GRID` as used by `SPOTFILLING::filling`: a 2-D field of cell
values, indexed `g iP iT` mirroring the source's `mGrid[iP][iT]`. -/
abbrev GRID := Nat → Nat → ℚ

/-- The five grid fields `SPOTFILLING::filling` receives by reference:
`mGridN`, `mGridDen`, `mGridVol`, `mGridOc`, `mGridBi`. -/
structure FillState where
  mGridN : GRID
  mGridDen : GRID
  mGridVol : GRID
  mGridOc : GRID
  mGridBi : GRID

/-- The spot parameters stored by `SPOTFILLING::setSpot`:
activation window `[tStart, tEnd]`, center colatitude `tCenter` (degrees),
center longitude `pCenter` (degrees), radius `R` (km), amplification `f`. -/
structure SpotParams where
  tStart : Int
  tEnd : Int
  tCenter : ℚ
  pCenter : ℚ
  R : ℚ
  f : ℚ

/-- Abstract mathematical context: libm `sin`, `sqrt`, the constant `M_PI`,
and the injected saturation function `(*saturation)`. -/
structure Ctx where
  sin : ℚ → ℚ
  sqrt : ℚ → ℚ
  pi : ℚ
  saturation : ℚ → ℚ

/-- Line 74: `float RE=6400;` — Earth radius in km used by the spot overlay. -/
def RE : ℚ := 6400

/-- Lines 81–85 of `spotfilling.C`:
`dP=vP[iP]-pCenter; if(dP>180) dP-=360; if(dP<-180) dP+=360;`
applied to an already-formed difference. -/
def normalizeDLon (dP : ℚ) : ℚ :=
  let d1 := if dP > 180 then dP - 360 else dP
  if d1 < -180 then d1 + 360 else d1

/-- Line 67: `dSat=(*saturation)(1/sin(tCenter/180*M_PI)/sin(tCenter/180*M_PI));` -/
def dSat (c : Ctx) (p : SpotParams) : ℚ :=
  c.saturation (1 / c.sin (p.tCenter / 180 * c.pi) / c.sin (p.tCenter / 180 * c.pi))

/-- Line 68: `sSat=f*dSat;` -/
def sSat (c : Ctx) (p : SpotParams) : ℚ := p.f * dSat c p

/-- Line 69: `sFMax=f*fMax;` -/
def sFMax (p : SpotParams) (fMax : ℚ) : ℚ := p.f * fMax

/-- Lines 80–87: the planar distance `r` of grid cell `(iT, iP)` from the
spot center: `dT=(vT[iT]-tCenter)/180*M_PI*RE;` then the normalized `dP`
scaled by `/180*M_PI*RE*sin(vT[iT]/180*M_PI)`, then `r=sqrt(dT*dT+dP*dP);`. -/
def cellDist (c : Ctx) (p : SpotParams) (vT vP : List ℚ) (iT iP : Nat) : ℚ :=
  let dT := (vT.getD iT 0 - p.tCenter) / 180 * c.pi * RE
  let dP := normalizeDLon (vP.getD iP 0 - p.pCenter) / 180 * c.pi * RE
    * c.sin (vT.getD iT 0 / 180 * c.pi)
  c.sqrt (dT * dT + dP * dP)

/-- Point update of one grid cell, leaving every other cell unchanged. -/
def update2 (g : GRID) (iP iT : Nat) (v : ℚ) : GRID :=
  fun iP' iT' => if iP' = iP ∧ iT' = iT then v else g iP' iT'

/-- Lines 90–94, the body of the double loop for one cell `(iT, iP)`:
`if(r<R){ flux=(sSat-mGridDen[iP][iT])/sSat*sFMax;
mGridN[iP][iT]+=flux*dt/mGridBi[iP][iT];
mGridDen[iP][iT]=mGridN[iP][iT]/mGridVol[iP][iT]; }` -/
def cellUpdate (c : Ctx) (p : SpotParams) (fMax : ℚ) (vT vP : List ℚ) (dt : ℚ)
    (st : FillState) (iT iP : Nat) : FillState :=
  if cellDist c p vT vP iT iP < p.R then
    let flux := (sSat c p - st.mGridDen iP iT) / sSat c p * sFMax p fMax
    let n := st.mGridN iP iT + flux * dt / st.mGridBi iP iT
    { st with
      mGridN := update2 st.mGridN iP iT n
      mGridDen := update2 st.mGridDen iP iT (n / st.mGridVol iP iT) }
  else st

/-- Lines 77–78: `for(iT=0;iT<nT;iT++) for(iP=0;iP<nP;iP++)` — the index
pairs visited by the nested loops, in loop order. -/
def loopPairs (nT nP : Nat) : List (Nat × Nat) :=
  (List.range nT).product (List.range nP)

/-- Folding the per-cell loop body over a list of index pairs. -/
def spotFoldl (c : Ctx) (p : SpotParams) (fMax : ℚ) (vT vP : List ℚ) (dt : ℚ)
    (L : List (Nat × Nat)) (st : FillState) : FillState :=
  L.foldl (fun s q => cellUpdate c p fMax vT vP dt s q.1 q.2) st

/-- The whole double loop of lines 77–95: fold the per-cell body over the
visited index pairs. -/
def spotLoop (c : Ctx) (p : SpotParams) (fMax : ℚ) (vT vP : List ℚ) (dt : ℚ)
    (st : FillState) : FillState :=
  spotFoldl c p fMax vT vP dt (loopPairs vT.length vP.length) st

/-- The function `SPOTFILLING::filling` (lines 58–97): first delegate to the baseline
`FILLING::filling` (an external collaborator, abstracted as `base`), then,
when `tStart<=t&&t<=tEnd`, run the spot overlay loop. -/
def SPOTFILLING.filling (c : Ctx) (base : FillState → ℚ → FillState)
    (p : SpotParams) (fMax : ℚ) (t : Int) (vT vP : List ℚ)
    (st : FillState) (dt : ℚ) : FillState :=
  let st1 := base st dt
  if p.tStart ≤ t ∧ t ≤ p.tEnd then spotLoop c p fMax vT vP dt st1 else st1

/-- The scalar effect of the loop body on a cell's `N` value: the injected
flux `(sSat − den)/sSat · sFMax` times `dt/bi` is added when `r < R`. -/
def injN (c : Ctx) (p : SpotParams) (fMax : ℚ) (vT vP : List ℚ) (dt : ℚ)
    (iT iP : Nat) (n den bi : ℚ) : ℚ :=
  if cellDist c p vT vP iT iP < p.R then
    n + (sSat c p - den) / sSat c p * sFMax p fMax * dt / bi
  else n

/-- The scalar effect of the loop body on a cell's `Den` value: recomputed
as the new `N` over `Vol` when `r < R`, untouched otherwise. -/
def injDen (c : Ctx) (p : SpotParams) (fMax : ℚ) (vT vP : List ℚ) (dt : ℚ)
    (iT iP : Nat) (n den bi vol : ℚ) : ℚ :=
  if cellDist c p vT vP iT iP < p.R then
    injN c p fMax vT vP dt iT iP n den bi / vol
  else den

section PointwiseLemmas

variable (c : Ctx) (p : SpotParams) (fMax : ℚ) (vT vP : List ℚ) (dt : ℚ)

lemma cellUpdate_mGridVol (st : FillState) (iT iP : Nat) :
    (cellUpdate c p fMax vT vP dt st iT iP).mGridVol = st.mGridVol := by
  unfold cellUpdate; split <;> rfl

lemma cellUpdate_mGridOc (st : FillState) (iT iP : Nat) :
    (cellUpdate c p fMax vT vP dt st iT iP).mGridOc = st.mGridOc := by
  unfold cellUpdate; split <;> rfl

lemma cellUpdate_mGridBi (st : FillState) (iT iP : Nat) :
    (cellUpdate c p fMax vT vP dt st iT iP).mGridBi = st.mGridBi := by
  unfold cellUpdate; split <;> rfl

lemma cellUpdate_self (st : FillState) (iT iP : Nat) :
    (cellUpdate c p fMax vT vP dt st iT iP).mGridN iP iT
        = injN c p fMax vT vP dt iT iP (st.mGridN iP iT) (st.mGridDen iP iT)
            (st.mGridBi iP iT)
      ∧ (cellUpdate c p fMax vT vP dt st iT iP).mGridDen iP iT
        = injDen c p fMax vT vP dt iT iP (st.mGridN iP iT) (st.mGridDen iP iT)
            (st.mGridBi iP iT) (st.mGridVol iP iT) := by
  unfold cellUpdate injDen injN
  split <;> simp [update2]

lemma cellUpdate_other (st : FillState) (iT iP iT' iP' : Nat)
    (h : (iT', iP') ≠ (iT, iP)) :
    (cellUpdate c p fMax vT vP dt st iT iP).mGridN iP' iT' = st.mGridN iP' iT'
      ∧ (cellUpdate c p fMax vT vP dt st iT iP).mGridDen iP' iT'
          = st.mGridDen iP' iT' := by
  have h2 : ¬(iP' = iP ∧ iT' = iT) := by
    rintro ⟨rfl, rfl⟩; exact h rfl
  unfold cellUpdate
  split <;> simp [update2, h2]

lemma spotFoldl_mGridVol (L : List (Nat × Nat)) (st : FillState) :
    (spotFoldl c p fMax vT vP dt L st).mGridVol = st.mGridVol := by
  induction L generalizing st with
  | nil => rfl
  | cons a L ih =>
      simp only [spotFoldl, List.foldl_cons] at ih ⊢
      rw [ih, cellUpdate_mGridVol]

lemma spotFoldl_mGridOc (L : List (Nat × Nat)) (st : FillState) :
    (spotFoldl c p fMax vT vP dt L st).mGridOc = st.mGridOc := by
  induction L generalizing st with
  | nil => rfl
  | cons a L ih =>
      simp only [spotFoldl, List.foldl_cons] at ih ⊢
      rw [ih, cellUpdate_mGridOc]

lemma spotFoldl_mGridBi (L : List (Nat × Nat)) (st : FillState) :
    (spotFoldl c p fMax vT vP dt L st).mGridBi = st.mGridBi := by
  induction L generalizing st with
  | nil => rfl
  | cons a L ih =>
      simp only [spotFoldl, List.foldl_cons] at ih ⊢
      rw [ih, cellUpdate_mGridBi]

lemma spotFoldl_not_mem (L : List (Nat × Nat)) (st : FillState) (iT iP : Nat)
    (h : (iT, iP) ∉ L) :
    (spotFoldl c p fMax vT vP dt L st).mGridN iP iT = st.mGridN iP iT
      ∧ (spotFoldl c p fMax vT vP dt L st).mGridDen iP iT = st.mGridDen iP iT := by
  induction L generalizing st with
  | nil => exact ⟨rfl, rfl⟩
  | cons a L ih =>
      have hne : (iT, iP) ≠ a := fun he => h (he ▸ List.mem_cons_self a L)
      have hnm : (iT, iP) ∉ L := fun hm => h (List.mem_cons_of_mem a hm)
      simp only [spotFoldl, List.foldl_cons] at ih ⊢
      have hother := cellUpdate_other c p fMax vT vP dt st a.1 a.2 iT iP
        (by simpa using hne)
      have := ih (cellUpdate c p fMax vT vP dt st a.1 a.2) hnm
      exact ⟨this.1.trans hother.1, this.2.trans hother.2⟩

lemma spotFoldl_split (L1 L2 : List (Nat × Nat)) (st : FillState) (iT iP : Nat)
    (h1 : (iT, iP) ∉ L1) (h2 : (iT, iP) ∉ L2) :
    (spotFoldl c p fMax vT vP dt (L1 ++ (iT, iP) :: L2) st).mGridN iP iT
        = injN c p fMax vT vP dt iT iP (st.mGridN iP iT) (st.mGridDen iP iT)
            (st.mGridBi iP iT)
      ∧ (spotFoldl c p fMax vT vP dt (L1 ++ (iT, iP) :: L2) st).mGridDen iP iT
        = injDen c p fMax vT vP dt iT iP (st.mGridN iP iT) (st.mGridDen iP iT)
            (st.mGridBi iP iT) (st.mGridVol iP iT) := by
  have hfold : spotFoldl c p fMax vT vP dt (L1 ++ (iT, iP) :: L2) st
      = spotFoldl c p fMax vT vP dt L2
          (cellUpdate c p fMax vT vP dt (spotFoldl c p fMax vT vP dt L1 st) iT iP) := by
    simp only [spotFoldl, List.foldl_append, List.foldl_cons]
  set st1 := spotFoldl c p fMax vT vP dt L1 st with hst1
  have hN1 := (spotFoldl_not_mem c p fMax vT vP dt L1 st iT iP h1).1
  have hDen1 := (spotFoldl_not_mem c p fMax vT vP dt L1 st iT iP h1).2
  have hBi1 : st1.mGridBi = st.mGridBi := spotFoldl_mGridBi c p fMax vT vP dt L1 st
  have hVol1 : st1.mGridVol = st.mGridVol := spotFoldl_mGridVol c p fMax vT vP dt L1 st
  have hself := cellUpdate_self c p fMax vT vP dt st1 iT iP
  have hskip := spotFoldl_not_mem c p fMax vT vP dt L2
    (cellUpdate c p fMax vT vP dt st1 iT iP) iT iP h2
  rw [hfold]
  refine ⟨?_, ?_⟩
  · rw [hskip.1, hself.1, hN1, hDen1, hBi1]
  · rw [hskip.2, hself.2, hN1, hDen1, hBi1, hVol1]

lemma mem_loopPairs (nT nP : Nat) (q : Nat × Nat) :
    q ∈ loopPairs nT nP ↔ q.1 < nT ∧ q.2 < nP := by
  obtain ⟨a, b⟩ := q
  simp [loopPairs, List.mem_product]

lemma nodup_loopPairs (nT nP : Nat) : (loopPairs nT nP).Nodup :=
  List.Nodup.product (List.nodup_range nT) (List.nodup_range nP)

/-- The value of the two mutable grids at any in-range cell after the double
loop of lines 77–95: exactly one execution of the loop body for that cell,
applied to the cell's pre-loop values. -/
lemma spotLoop_cell (st : FillState) (iT iP : Nat)
    (hT : iT < vT.length) (hP : iP < vP.length) :
    (spotLoop c p fMax vT vP dt st).mGridN iP iT
        = injN c p fMax vT vP dt iT iP (st.mGridN iP iT) (st.mGridDen iP iT)
            (st.mGridBi iP iT)
      ∧ (spotLoop c p fMax vT vP dt st).mGridDen iP iT
        = injDen c p fMax vT vP dt iT iP (st.mGridN iP iT) (st.mGridDen iP iT)
            (st.mGridBi iP iT) (st.mGridVol iP iT) := by
  have hmem : (iT, iP) ∈ loopPairs vT.length vP.length :=
    (mem_loopPairs _ _ _).2 ⟨hT, hP⟩
  obtain ⟨L1, L2, hL⟩ := List.append_of_mem hmem
  have hnd : (L1 ++ (iT, iP) :: L2).Nodup := by
    rw [← hL]; exact nodup_loopPairs _ _
  rw [List.nodup_append] at hnd
  have h2 : (iT, iP) ∉ L2 := (List.nodup_cons.1 hnd.2.1).1
  have h1 : (iT, iP) ∉ L1 := fun hm =>
    hnd.2.2 hm (List.mem_cons_self _ _)
  unfold spotLoop
  rw [hL]
  exact spotFoldl_split c p fMax vT vP dt L1 L2 st iT iP h1 h2

/-- Cells outside the index range of the loops are never touched. -/
lemma spotLoop_out (st : FillState) (iT iP : Nat)
    (h : ¬(iT < vT.length ∧ iP < vP.length)) :
    (spotLoop c p fMax vT vP dt st).mGridN iP iT = st.mGridN iP iT
      ∧ (spotLoop c p fMax vT vP dt st).mGridDen iP iT = st.mGridDen iP iT := by
  have : (iT, iP) ∉ loopPairs vT.length vP.length := fun hm =>
    h ((mem_loopPairs _ _ _).1 hm)
  exact spotFoldl_not_mem c p fMax vT vP dt _ st iT iP this

lemma spotLoop_mGridVol (st : FillState) :
    (spotLoop c p fMax vT vP dt st).mGridVol = st.mGridVol :=
  spotFoldl_mGridVol c p fMax vT vP dt _ st

lemma spotLoop_mGridOc (st : FillState) :
    (spotLoop c p fMax vT vP dt st).mGridOc = st.mGridOc :=
  spotFoldl_mGridOc c p fMax vT vP dt _ st

lemma spotLoop_mGridBi (st : FillState) :
    (spotLoop c p fMax vT vP dt st).mGridBi = st.mGridBi :=
  spotFoldl_mGridBi c p fMax vT vP dt _ st

end PointwiseLemmas

/-! ## C3 — longitude-difference normalization -/

/-- Claim C3 (counterexample): The claim says the normalized `dLon` always lies
in the half-open interval `(−180°, 180°]`. For grid longitude `0°` and spot
center longitude `180°` the raw difference is `−180`, neither branch fires,
and the normalized value is exactly `−180`, which is not in `(−180, 180]`. -/
theorem C3_normalizeDLon_not_Ioc :
    normalizeDLon ((0 : ℚ) - 180) = -180 ∧ ¬ (-180 < normalizeDLon ((0 : ℚ) - 180)) := by
  constructor
  · norm_num [normalizeDLon]
  · norm_num [normalizeDLon]

/-- Claim C3 (amended): For grid and spot-center longitudes in `[0°, 360°)` the
normalization by the two conditional 360° shifts lands `dLon` in the closed
interval `[−180°, 180°]` (the endpoint `−180` is attainable, so the interval
is closed on both ends, not half-open); in particular for center `350°` and
grid longitude `10°` the normalized difference is `20°`, not `340°`. -/
theorem C3_normalizeDLon_range (lon centerLon : ℚ)
    (hlon0 : 0 ≤ lon) (hlon1 : lon < 360)
    (hc0 : 0 ≤ centerLon) (hc1 : centerLon < 360) :
    (-180 ≤ normalizeDLon (lon - centerLon) ∧ normalizeDLon (lon - centerLon) ≤ 180)
      ∧ normalizeDLon ((10 : ℚ) - 350) = 20 := by
  refine ⟨?_, by norm_num [normalizeDLon]⟩
  unfold normalizeDLon
  dsimp only
  split_ifs <;> constructor <;> linarith

/-- Claim C3 (witness for the amended theorem): Concrete instance: longitudes
`10°` and `350°` are in range and the amended bounds hold there. -/
theorem C3_normalizeDLon_range_witness :
    ((-180 ≤ normalizeDLon ((10 : ℚ) - 350) ∧ normalizeDLon ((10 : ℚ) - 350) ≤ 180)
      ∧ normalizeDLon ((10 : ℚ) - 350) = 20) :=
  C3_normalizeDLon_range 10 350 (by norm_num) (by norm_num) (by norm_num) (by norm_num)

/-! ## C2 — the activation window is closed on both ends -/

/-- Claim C2: The spot window is closed at both ends: for any time strictly
outside `[tStart, tEnd]` the stage returns the baseline result untouched;
for any time inside (in particular exactly `tStart` or exactly `tEnd`) the
overlay loop runs and every in-range cell with `r < R` receives the
injection. -/
theorem C2_window_closed (c : Ctx) (base : FillState → ℚ → FillState)
    (p : SpotParams) (fMax : ℚ) (vT vP : List ℚ) (st : FillState) (dt : ℚ)
    (hW : p.tStart ≤ p.tEnd) :
    (∀ t : Int, ¬(p.tStart ≤ t ∧ t ≤ p.tEnd) →
        SPOTFILLING.filling c base p fMax t vT vP st dt = base st dt)
    ∧ (∀ t : Int, p.tStart ≤ t ∧ t ≤ p.tEnd →
        SPOTFILLING.filling c base p fMax t vT vP st dt
          = spotLoop c p fMax vT vP dt (base st dt))
    ∧ (∀ t : Int, (t = p.tStart ∨ t = p.tEnd) → ∀ iT iP : Nat,
        iT < vT.length → iP < vP.length → cellDist c p vT vP iT iP < p.R →
        (SPOTFILLING.filling c base p fMax t vT vP st dt).mGridN iP iT
          = (base st dt).mGridN iP iT
            + (sSat c p - (base st dt).mGridDen iP iT) / sSat c p * sFMax p fMax
              * dt / (base st dt).mGridBi iP iT) := by
  refine ⟨?_, ?_, ?_⟩
  · intro t ht
    unfold SPOTFILLING.filling
    simp [ht]
  · intro t ht
    unfold SPOTFILLING.filling
    simp [ht]
  · intro t ht iT iP hT hP hr
    have hin : p.tStart ≤ t ∧ t ≤ p.tEnd := by
      rcases ht with rfl | rfl
      · exact ⟨le_refl _, hW⟩
      · exact ⟨hW, le_refl _⟩
    unfold SPOTFILLING.filling
    simp only [hin, and_self, if_true]
    rw [(spotLoop_cell c p fMax vT vP dt (base st dt) iT iP hT hP).1]
    unfold injN
    rw [if_pos hr]

/-! ## C4 — the injection formula inside the spot -/

/-- Claim C4: When the spot is active, `spotSaturation = f · saturation(1/sin²
(centerColat in radians))` and `spotPeakRate = f · fMax`; every in-range cell
with planar distance strictly less than `R` gets
`N += (sSat − Den)/sSat · sFMax · dt / Bi` and its `Den` is immediately
recomputed as the new `N` over `Vol`; a cell at distance `≥ R` is untouched. -/
theorem C4_spot_injection (c : Ctx) (base : FillState → ℚ → FillState)
    (p : SpotParams) (fMax : ℚ) (vT vP : List ℚ) (st : FillState) (dt : ℚ)
    (t : Int) (hact : p.tStart ≤ t ∧ t ≤ p.tEnd)
    (iT iP : Nat) (hT : iT < vT.length) (hP : iP < vP.length) :
    sSat c p = p.f * c.saturation (1 / (c.sin (p.tCenter / 180 * c.pi)) ^ 2)
    ∧ sFMax p fMax = p.f * fMax
    ∧ (cellDist c p vT vP iT iP < p.R →
        (SPOTFILLING.filling c base p fMax t vT vP st dt).mGridN iP iT
          = (base st dt).mGridN iP iT
            + (sSat c p - (base st dt).mGridDen iP iT) / sSat c p * sFMax p fMax
              * dt / (base st dt).mGridBi iP iT
        ∧ (SPOTFILLING.filling c base p fMax t vT vP st dt).mGridDen iP iT
          = (SPOTFILLING.filling c base p fMax t vT vP st dt).mGridN iP iT
              / (base st dt).mGridVol iP iT)
    ∧ (¬ cellDist c p vT vP iT iP < p.R →
        (SPOTFILLING.filling c base p fMax t vT vP st dt).mGridN iP iT
          = (base st dt).mGridN iP iT
        ∧ (SPOTFILLING.filling c base p fMax t vT vP st dt).mGridDen iP iT
          = (base st dt).mGridDen iP iT) := by
  have hfill : SPOTFILLING.filling c base p fMax t vT vP st dt
      = spotLoop c p fMax vT vP dt (base st dt) := by
    unfold SPOTFILLING.filling
    simp [hact]
  have hcell := spotLoop_cell c p fMax vT vP dt (base st dt) iT iP hT hP
  refine ⟨?_, rfl, ?_, ?_⟩
  · unfold sSat dSat
    rw [div_div, ← pow_two]
  · intro hr
    constructor
    · rw [hfill, hcell.1]; unfold injN; rw [if_pos hr]
    · rw [hfill, hcell.1, hcell.2]; unfold injDen; rw [if_pos hr]
  · intro hr
    rw [hfill, hcell.1, hcell.2]
    unfold injN injDen
    rw [if_neg hr, if_neg hr]
    exact ⟨rfl, rfl⟩

/-! ## C5 — density consistency after any spot-stage mutation of N -/

/-- Claim C5: For every grid cell, if the spot-filling stage changed the cell's
`N` relative to what the baseline filling produced, then the cell's `Den`
equals the new `N` divided by the cell's `Vol`: the only code path that
mutates `N` (lines 91–93) immediately recomputes `Den` for the same cell. -/
theorem C5_density_consistency (c : Ctx) (base : FillState → ℚ → FillState)
    (p : SpotParams) (fMax : ℚ) (vT vP : List ℚ) (st : FillState) (dt : ℚ)
    (t : Int) (iP iT : Nat)
    (hchanged : (SPOTFILLING.filling c base p fMax t vT vP st dt).mGridN iP iT
      ≠ (base st dt).mGridN iP iT) :
    (SPOTFILLING.filling c base p fMax t vT vP st dt).mGridDen iP iT
      = (SPOTFILLING.filling c base p fMax t vT vP st dt).mGridN iP iT
        / (SPOTFILLING.filling c base p fMax t vT vP st dt).mGridVol iP iT := by
  unfold SPOTFILLING.filling at hchanged ⊢
  by_cases hact : p.tStart ≤ t ∧ t ≤ p.tEnd
  · simp only [hact, and_self, if_true] at hchanged ⊢
    by_cases hrange : iT < vT.length ∧ iP < vP.length
    · have hcell := spotLoop_cell c p fMax vT vP dt (base st dt) iT iP hrange.1 hrange.2
      by_cases hr : cellDist c p vT vP iT iP < p.R
      · rw [hcell.1, hcell.2, spotLoop_mGridVol]
        unfold injDen
        rw [if_pos hr]
      · exfalso
        apply hchanged
        rw [hcell.1]
        unfold injN
        rw [if_neg hr]
    · exfalso
      apply hchanged
      exact (spotLoop_out c p fMax vT vP dt (base st dt) iT iP hrange).1
  · exfalso
    apply hchanged
    simp [hact]

/-! ## C6 — outside the window the stage is the baseline filling -/

/-- Claim C6: With the current time strictly outside `[tStart, tEnd]`, the spot
stage's result is identical — in every grid field — to running the baseline
filling alone on the same state with the same time step. -/
theorem C6_noop_outside_window (c : Ctx) (base : FillState → ℚ → FillState)
    (p : SpotParams) (fMax : ℚ) (vT vP : List ℚ) (st : FillState) (dt : ℚ)
    (t : Int) (h : ¬(p.tStart ≤ t ∧ t ≤ p.tEnd)) :
    SPOTFILLING.filling c base p fMax t vT vP st dt = base st dt := by
  unfold SPOTFILLING.filling
  simp [h]

/-! ## Concrete fixtures for witnesses -/

/-- Concrete interpretation of the abstract math context used by witnesses:
a constant `sin`, identity `sqrt`, `pi := 3` and a constant saturation curve. -/
def testCtx : Ctx :=
  { sin := fun _ => 1, sqrt := fun x => x, pi := 3, saturation := fun _ => 2 }

/-- Concrete spot parameters: window `[0, 100]`, center at colatitude 30°,
longitude 315°, radius 1000 km, amplification 1. -/
def testP : SpotParams :=
  { tStart := 0, tEnd := 100, tCenter := 30, pCenter := 315, R := 1000, f := 1 }

/-- Concrete grid state: every cell has `N = 3`, `Den = 7`, `Vol = 2`,
`Oc = 0`, `Bi = 1`. -/
def testSt : FillState :=
  { mGridN := fun _ _ => 3, mGridDen := fun _ _ => 7, mGridVol := fun _ _ => 2
    mGridOc := fun _ _ => 0, mGridBi := fun _ _ => 1 }

/-- A concrete instance of the abstract baseline-filling collaborator:
the identity filling. -/
def baseId : FillState → ℚ → FillState := fun st _ => st

/-- Claim C2 (witness): On the concrete fixture, with the grid cell at the spot
center: times exactly `tStart = 0` and exactly `tEnd = 100` both inject
(`N` becomes `3 + (2−7)/2·1·10/1 = −22`), while `tStart − 1` and `tEnd + 1`
leave the state exactly as the baseline produced it. -/
theorem C2_window_closed_witness :
    (SPOTFILLING.filling testCtx baseId testP 1 0 [30] [315] testSt 10).mGridN 0 0 = -22
    ∧ (SPOTFILLING.filling testCtx baseId testP 1 100 [30] [315] testSt 10).mGridN 0 0 = -22
    ∧ SPOTFILLING.filling testCtx baseId testP 1 (-1) [30] [315] testSt 10 = testSt
    ∧ SPOTFILLING.filling testCtx baseId testP 1 101 [30] [315] testSt 10 = testSt := by
  have hcd : cellDist testCtx testP [30] [315] 0 0 < testP.R := by
    norm_num [cellDist, testCtx, testP, normalizeDLon, RE]
  have h := C2_window_closed testCtx baseId testP 1 [30] [315] testSt 10 (by decide)
  refine ⟨?_, ?_, ?_, ?_⟩
  · have h0 := h.2.2 0 (Or.inl rfl) 0 0 (by decide) (by decide) hcd
    rw [h0]; norm_num [baseId, testSt, sSat, dSat, sFMax, testCtx, testP]
  · have h100 := h.2.2 100 (Or.inr rfl) 0 0 (by decide) (by decide) hcd
    rw [h100]; norm_num [baseId, testSt, sSat, dSat, sFMax, testCtx, testP]
  · exact h.1 (-1) (by decide)
  · exact h.1 101 (by decide)

/-- Claim C4 (witness): On the concrete fixture at active time 50 with grid
rows `[30, 120]`: `sSat = 2`, `sFMax = 1`; the cell at the center (distance 0)
is injected to `N = −22`, `Den = −22/2 = −11`; the far cell (distance
`≥ R`) keeps `N = 3`, `Den = 7`. -/
theorem C4_spot_injection_witness :
    sSat testCtx testP = 2 ∧ sFMax testP 1 = 1
    ∧ (SPOTFILLING.filling testCtx baseId testP 1 50 [30, 120] [315] testSt 10).mGridN 0 0 = -22
    ∧ (SPOTFILLING.filling testCtx baseId testP 1 50 [30, 120] [315] testSt 10).mGridDen 0 0 = -11
    ∧ (SPOTFILLING.filling testCtx baseId testP 1 50 [30, 120] [315] testSt 10).mGridN 0 1 = 3
    ∧ (SPOTFILLING.filling testCtx baseId testP 1 50 [30, 120] [315] testSt 10).mGridDen 0 1 = 7 := by
  have h0 := C4_spot_injection testCtx baseId testP 1 [30, 120] [315] testSt 10 50
    (by decide) 0 0 (by decide) (by decide)
  have h1 := C4_spot_injection testCtx baseId testP 1 [30, 120] [315] testSt 10 50
    (by decide) 1 0 (by decide) (by decide)
  have hnear := h0.2.2.1 (by norm_num [cellDist, testCtx, testP, normalizeDLon, RE])
  have hfar := h1.2.2.2 (by norm_num [cellDist, testCtx, testP, normalizeDLon, RE])
  refine ⟨by norm_num [sSat, dSat, sFMax, testCtx, testP],
    by norm_num [sFMax, testP], ?_, ?_, ?_, ?_⟩
  · rw [hnear.1]; norm_num [baseId, testSt, sSat, dSat, sFMax, testCtx, testP]
  · rw [hnear.2, hnear.1]; norm_num [baseId, testSt, sSat, dSat, sFMax, testCtx, testP]
  · rw [hfar.1]; norm_num [baseId, testSt]
  · rw [hfar.2]; norm_num [baseId, testSt]

/-- Claim C5 (witness): On the concrete fixture the spot stage changes the
center cell's `N` (to −22 ≠ 3), and its `Den` indeed equals the new `N`
divided by the cell's `Vol`. -/
theorem C5_density_consistency_witness :
    (SPOTFILLING.filling testCtx baseId testP 1 50 [30] [315] testSt 10).mGridN 0 0
      ≠ (baseId testSt 10).mGridN 0 0
    ∧ (SPOTFILLING.filling testCtx baseId testP 1 50 [30] [315] testSt 10).mGridDen 0 0
      = (SPOTFILLING.filling testCtx baseId testP 1 50 [30] [315] testSt 10).mGridN 0 0
        / (SPOTFILLING.filling testCtx baseId testP 1 50 [30] [315] testSt 10).mGridVol 0 0 := by
  have hcd : cellDist testCtx testP [30] [315] 0 0 < testP.R := by
    norm_num [cellDist, testCtx, testP, normalizeDLon, RE]
  have hfill : SPOTFILLING.filling testCtx baseId testP 1 50 [30] [315] testSt 10
      = spotLoop testCtx testP 1 [30] [315] 10 testSt := by
    simp only [SPOTFILLING.filling, baseId]
    rw [if_pos ⟨by decide, by decide⟩]
  have hchanged : (SPOTFILLING.filling testCtx baseId testP 1 50 [30] [315] testSt 10).mGridN 0 0
      ≠ (baseId testSt 10).mGridN 0 0 := by
    rw [hfill,
      (spotLoop_cell testCtx testP 1 [30] [315] 10 testSt 0 0 (by decide) (by decide)).1]
    unfold injN
    rw [if_pos hcd]
    norm_num [baseId, testSt, sSat, dSat, sFMax, testCtx, testP]
  exact ⟨hchanged,
    C5_density_consistency testCtx baseId testP 1 [30] [315] testSt 10 50 0 0 hchanged⟩

/-- Claim C6 (witness): On the concrete fixture with current time 1000 (after
`tEnd = 100`), the stage's output is exactly the baseline's output. -/
theorem C6_noop_outside_window_witness :
    SPOTFILLING.filling testCtx baseId testP 1 1000 [30] [315] testSt 10 = testSt :=
  C6_noop_outside_window testCtx baseId testP 1 [30] [315] testSt 10 1000 (by decide)

/-! ## C7 — no validation of the saturation value -/

/-- A saturation curve that returns 0 everywhere (the degenerate case the
spec's error-handling section says must be rejected at spot activation). -/
def zeroSatCtx : Ctx :=
  { sin := fun _ => 1, sqrt := fun x => x, pi := 3, saturation := fun _ => 0 }

/-- Claim C7: `SPOTFILLING::filling` performs no validation of the saturation
value: with a saturation curve returning 0 and the spot active, `sSat = 0`,
yet the stage proceeds through lines 90–94, dividing by `sSat` in the flux
expression and overwriting the center cell's `Den` (here from 7 to `3/2`),
instead of failing fast. (In C, the division by zero produces a non-finite
value that is written into the grid.) -/
theorem C7_no_saturation_validation :
    sSat zeroSatCtx testP = 0
    ∧ (SPOTFILLING.filling zeroSatCtx baseId testP 1 50 [30] [315] testSt 10).mGridDen 0 0 = 3 / 2
    ∧ (SPOTFILLING.filling zeroSatCtx baseId testP 1 50 [30] [315] testSt 10).mGridN 0 0 = 3 := by
  have hcd : cellDist zeroSatCtx testP [30] [315] 0 0 < testP.R := by
    norm_num [cellDist, zeroSatCtx, testP, normalizeDLon, RE]
  have hfill : SPOTFILLING.filling zeroSatCtx baseId testP 1 50 [30] [315] testSt 10
      = spotLoop zeroSatCtx testP 1 [30] [315] 10 testSt := by
    simp only [SPOTFILLING.filling, baseId]
    rw [if_pos ⟨by decide, by decide⟩]
  have hcell := spotLoop_cell zeroSatCtx testP 1 [30] [315] 10 testSt 0 0
    (by decide) (by decide)
  refine ⟨by norm_num [sSat, dSat, zeroSatCtx, testP], ?_, ?_⟩
  · rw [hfill, hcell.2]
    unfold injDen injN
    rw [if_pos hcd, if_pos hcd]
    norm_num [testSt, sSat, dSat, sFMax, zeroSatCtx, testP]
  · rw [hfill, hcell.1]
    unfold injN
    rw [if_pos hcd]
    norm_num [testSt, sSat, dSat, sFMax, zeroSatCtx, testP]

/-!
## Scheduler embedding — `src/src/runDGCPM.C`, `main`, lines 172–219

Times are seconds (`aTime` differences), embedded as `Int`.  The model
advance `m.advance(...)`, the state/sample writers and the Kp/potential
update are external collaborators; the step records which of them fired in a
`StepLog`.  The Kp record timestamps are the list `kp`; the `SAMPLE`
collaborator lives in a submodule outside this repository's sources, so its
cursor advance is modelled from the spec (see `writeSamplesNext`).
-/

/-- The mutable loop state of `main`: current time `t`, wake time `tNext`,
the four stream cursors `tFilling`, `tWriteSample`, `tWriteState`, `tKp`,
the forcing-record index `iKp`, and the `SPOTFILLING *f` pointer —
`some` (holding the spot stage's cached time) iff the `-filling` option
assigned it, `none` when it is left uninitialized. -/
structure Sched where
  t : Int
  tNext : Int
  tFilling : Int
  tWriteSample : Int
  tWriteState : Int
  tKp : Int
  iKp : Nat
  f : Option Int

/-- What one loop iteration did: the amount passed to `m.advance` (if any),
and which of the three conditioned streams fired. -/
structure StepLog where
  advanced : Option Int
  servicedKp : Bool
  servicedState : Bool
  servicedSample : Bool

/-- Modelled from the spec: the `SAMPLE` collaborator (class `SAMPLE` in the
`submodules` tree, not part of this repository's sources) advances its cursor
by its fixed period when serviced; `writeSamples` returns the advanced
cursor (`++(*samples); return samples->getTime();`). -/
def writeSamplesNext (tWriteSample samplePeriod : Int) : Int :=
  tWriteSample + samplePeriod

/-- Lines 212–218: `tNext=tWriteSample; if(tWriteState<tNext)tNext=tWriteState;
if(tKp<tNext)tNext=tKp; if(tFilling<tNext)tNext=tFilling;`. -/
def nextMin (tWriteSample tWriteState tKp tFilling : Int) : Int :=
  let n1 := tWriteSample
  let n2 := if tWriteState < n1 then tWriteState else n1
  let n3 := if tKp < n2 then tKp else n2
  if tFilling < n3 then tFilling else n3

lemma nextMin_eq (a b c d : Int) :
    nextMin a b c d = min d (min c (min b a)) := by
  unfold nextMin
  dsimp only
  simp only [min_def]
  split_ifs <;> omega

/-- One iteration of the `for(;tNext<=tStop;)` body (lines 176–218), given
that the `f` pointer is valid.  `kp` is the ordered list of forcing-record
timestamps, `dtOut` the state-write period, `samplePeriod` the sample-write
period, `tStop` the run end. -/
def stepBody (kp : List Int) (dtOut samplePeriod tStop : Int) (s : Sched) :
    Sched × StepLog :=
  -- f->setTime(t); tFilling+=300;
  let f1 : Option Int := some s.t
  let tFilling1 := s.tFilling + 300
  -- if(tNext-t>0){ m.advance(tNext-t); t=tNext; }
  let advanced := if s.tNext - s.t > 0 then some (s.tNext - s.t) else none
  let t1 := if s.tNext - s.t > 0 then s.tNext else s.t
  -- if(t>=tKp){ par[0]=kp[iKp].getKp(); m.setEPot(...); iKp++;
  --   if(iKp>=kp.size()){ tKp=tStop; tKp+=1; } else tKp=kp[iKp].getTime(); }
  let servicedKp := decide (t1 ≥ s.tKp)
  let iKp1 := if t1 ≥ s.tKp then s.iKp + 1 else s.iKp
  let tKp1 := if t1 ≥ s.tKp then
      (if iKp1 ≥ kp.length then tStop + 1 else kp.getD iKp1 0)
    else s.tKp
  -- if(t>=tWriteState){ writeState(t,oFp,m); tWriteState+=dt; }
  let servicedState := decide (t1 ≥ s.tWriteState)
  let tWriteState1 := if t1 ≥ s.tWriteState then s.tWriteState + dtOut
    else s.tWriteState
  -- if(t>=tWriteSample){ tWriteSample=writeSamples(t,m); }
  let servicedSample := decide (t1 ≥ s.tWriteSample)
  let tWriteSample1 := if t1 ≥ s.tWriteSample then
      writeSamplesNext s.tWriteSample samplePeriod
    else s.tWriteSample
  -- tNext recomputation, lines 212–218
  let tNext1 := nextMin tWriteSample1 tWriteState1 tKp1 tFilling1
  (⟨t1, tNext1, tFilling1, tWriteSample1, tWriteState1, tKp1, iKp1, f1⟩,
   ⟨advanced, servicedKp, servicedState, servicedSample⟩)

/-- One iteration of the loop including the `f->setTime(t)` dereference
(line 177): if `f` was never assigned (no `-filling` option), the dereference
is undefined behaviour, modelled as `none`. -/
def step (kp : List Int) (dtOut samplePeriod tStop : Int) (s : Sched) :
    Option (Sched × StepLog) :=
  match s.f with
  | none => none
  | some _ => some (stepBody kp dtOut samplePeriod tStop s)

/-- The scheduling-loop invariant: the clock never exceeds the wake time, the
wake time never exceeds any stream cursor, and `tKp` tracks the forcing
record at index `iKp` (or `tStop + 1` once records are exhausted). -/
def SchedInv (kp : List Int) (tStop : Int) (s : Sched) : Prop :=
  s.t ≤ s.tNext ∧ s.tNext ≤ s.tWriteSample ∧ s.tNext ≤ s.tWriteState
    ∧ s.tNext ≤ s.tKp ∧ s.tNext ≤ s.tFilling
    ∧ s.tKp = kp.getD s.iKp (tStop + 1)

lemma stepBody_t_eq (kp : List Int) (dtOut samplePeriod tStop : Int)
    (s : Sched) (h : s.t ≤ s.tNext) :
    (stepBody kp dtOut samplePeriod tStop s).1.t = s.tNext := by
  show (if s.tNext - s.t > 0 then s.tNext else s.t) = s.tNext
  split <;> omega

lemma nextMin_le (a b c d : Int) :
    nextMin a b c d ≤ a ∧ nextMin a b c d ≤ b
      ∧ nextMin a b c d ≤ c ∧ nextMin a b c d ≤ d := by
  unfold nextMin
  dsimp only
  split_ifs <;> omega

lemma le_nextMin (x a b c d : Int) (ha : x ≤ a) (hb : x ≤ b) (hc : x ≤ c)
    (hd : x ≤ d) : x ≤ nextMin a b c d := by
  unfold nextMin
  dsimp only
  split_ifs <;> omega

/-! ## C1 — the clock advances to exactly the minimum due time -/

/-- Claim C1: With `tNext` equal to the chained minimum of the four stream
cursors (exactly as computed by lines 212–218 of the previous iteration),
one iteration that finds `tNext > t` advances the model by exactly
`tNext − t`, sets the clock to `tNext` — which does not pass any of the
four due times as they stand at the advance (the spot-refresh cursor has
just gained its 300 s tick) — and recomputes `tNext` as the minimum of the
four updated due times. -/
theorem C1_advance_to_min (kp : List Int) (dtOut samplePeriod tStop : Int)
    (s : Sched)
    (hmin : s.tNext = nextMin s.tWriteSample s.tWriteState s.tKp s.tFilling) :
    (s.t < s.tNext →
      (stepBody kp dtOut samplePeriod tStop s).2.advanced = some (s.tNext - s.t)
      ∧ (stepBody kp dtOut samplePeriod tStop s).1.t = s.tNext
      ∧ (stepBody kp dtOut samplePeriod tStop s).1.t ≤ s.tWriteSample
      ∧ (stepBody kp dtOut samplePeriod tStop s).1.t ≤ s.tWriteState
      ∧ (stepBody kp dtOut samplePeriod tStop s).1.t ≤ s.tKp
      ∧ (stepBody kp dtOut samplePeriod tStop s).1.t ≤ s.tFilling + 300)
    ∧ (stepBody kp dtOut samplePeriod tStop s).1.tNext
      = min ((stepBody kp dtOut samplePeriod tStop s).1.tFilling)
          (min ((stepBody kp dtOut samplePeriod tStop s).1.tKp)
            (min ((stepBody kp dtOut samplePeriod tStop s).1.tWriteState)
              ((stepBody kp dtOut samplePeriod tStop s).1.tWriteSample))) := by
  have hb := nextMin_le s.tWriteSample s.tWriteState s.tKp s.tFilling
  constructor
  · intro h
    have ht : (stepBody kp dtOut samplePeriod tStop s).1.t = s.tNext :=
      stepBody_t_eq kp dtOut samplePeriod tStop s h.le
    have hadv : (stepBody kp dtOut samplePeriod tStop s).2.advanced
        = if s.tNext - s.t > 0 then some (s.tNext - s.t) else none := rfl
    refine ⟨?_, ht, ?_, ?_, ?_, ?_⟩
    · rw [hadv, if_pos (by omega)]
    · rw [ht, hmin]; exact hb.1
    · rw [ht, hmin]; exact hb.2.1
    · rw [ht, hmin]; exact hb.2.2.1
    · rw [ht, hmin]
      have := hb.2.2.2
      omega
  · have hN : (stepBody kp dtOut samplePeriod tStop s).1.tNext
        = nextMin ((stepBody kp dtOut samplePeriod tStop s).1.tWriteSample)
            ((stepBody kp dtOut samplePeriod tStop s).1.tWriteState)
            ((stepBody kp dtOut samplePeriod tStop s).1.tKp)
            ((stepBody kp dtOut samplePeriod tStop s).1.tFilling) := rfl
    rw [hN, nextMin_eq]

/-- Concrete loop state used by the scheduler witnesses: clock at 0, next
wake 120, due times — sample 120, spot-refresh 300, state-write 900,
forcing 300 — matching the spec's scheduler-minimality test vector. -/
def testSched : Sched :=
  { t := 0, tNext := 120, tFilling := 300, tWriteSample := 120
    tWriteState := 900, tKp := 300, iKp := 0, f := some 0 }

/-- Claim C1 (witness): On the spec's test vector {sample 120, spot-refresh
300, state-write 900, forcing 300}: the iteration advances the model by
exactly 120, sets the clock to 120 — past none of the due times — and at
that tick services only the sample stream. -/
theorem C1_advance_to_min_witness :
    testSched.t < testSched.tNext
    ∧ ((stepBody [300] 900 900 1000 testSched).2.advanced
          = some (testSched.tNext - testSched.t)
        ∧ (stepBody [300] 900 900 1000 testSched).1.t = testSched.tNext
        ∧ (stepBody [300] 900 900 1000 testSched).1.t ≤ testSched.tWriteSample
        ∧ (stepBody [300] 900 900 1000 testSched).1.t ≤ testSched.tWriteState
        ∧ (stepBody [300] 900 900 1000 testSched).1.t ≤ testSched.tKp
        ∧ (stepBody [300] 900 900 1000 testSched).1.t ≤ testSched.tFilling + 300)
    ∧ (stepBody [300] 900 900 1000 testSched).1.tNext
      = min ((stepBody [300] 900 900 1000 testSched).1.tFilling)
          (min ((stepBody [300] 900 900 1000 testSched).1.tKp)
            (min ((stepBody [300] 900 900 1000 testSched).1.tWriteState)
              ((stepBody [300] 900 900 1000 testSched).1.tWriteSample)))
    ∧ (stepBody [300] 900 900 1000 testSched).2.servicedSample = true
    ∧ (stepBody [300] 900 900 1000 testSched).2.servicedState = false
    ∧ (stepBody [300] 900 900 1000 testSched).2.servicedKp = false := by
  have h := C1_advance_to_min [300] 900 900 1000 testSched (by decide)
  exact ⟨by decide, h.1 (by decide), h.2, by decide, by decide, by decide⟩

/-! ## C9 — never-late servicing -/

/-- Claim C9: Under the scheduling-loop invariant (clock ≤ wake time ≤ every
stream cursor, with `tKp` tracking the forcing records), with the forcing
records in non-decreasing order, positive write periods and the loop
condition `tNext ≤ tStop`: in one iteration each of the three conditioned
streams is serviced exactly when its due time equals the (just-advanced)
current time — never when the due time is strictly in the past — and the
invariant holds again in the resulting state, so every reachable state of
the loop services streams only at their exact due times. -/
theorem C9_never_late (kp : List Int) (dtOut samplePeriod tStop : Int)
    (s : Sched) (hinv : SchedInv kp tStop s) (hsort : kp.Sorted (· ≤ ·))
    (hdt : 0 < dtOut) (hsp : 0 < samplePeriod) (hloop : s.tNext ≤ tStop) :
    ((stepBody kp dtOut samplePeriod tStop s).2.servicedSample = true
        ↔ s.tWriteSample = (stepBody kp dtOut samplePeriod tStop s).1.t)
    ∧ ((stepBody kp dtOut samplePeriod tStop s).2.servicedState = true
        ↔ s.tWriteState = (stepBody kp dtOut samplePeriod tStop s).1.t)
    ∧ ((stepBody kp dtOut samplePeriod tStop s).2.servicedKp = true
        ↔ s.tKp = (stepBody kp dtOut samplePeriod tStop s).1.t)
    ∧ SchedInv kp tStop (stepBody kp dtOut samplePeriod tStop s).1 := by
  obtain ⟨h1, h2, h3, h4, h5, h6⟩ := hinv
  have ht : (stepBody kp dtOut samplePeriod tStop s).1.t = s.tNext :=
    stepBody_t_eq kp dtOut samplePeriod tStop s h1
  have hfSample : (stepBody kp dtOut samplePeriod tStop s).2.servicedSample
      = decide ((stepBody kp dtOut samplePeriod tStop s).1.t ≥ s.tWriteSample) := rfl
  have hfState : (stepBody kp dtOut samplePeriod tStop s).2.servicedState
      = decide ((stepBody kp dtOut samplePeriod tStop s).1.t ≥ s.tWriteState) := rfl
  have hfKp : (stepBody kp dtOut samplePeriod tStop s).2.servicedKp
      = decide ((stepBody kp dtOut samplePeriod tStop s).1.t ≥ s.tKp) := rfl
  have hWSam : (stepBody kp dtOut samplePeriod tStop s).1.tWriteSample
      = if (stepBody kp dtOut samplePeriod tStop s).1.t ≥ s.tWriteSample then
          writeSamplesNext s.tWriteSample samplePeriod
        else s.tWriteSample := rfl
  have hWSta : (stepBody kp dtOut samplePeriod tStop s).1.tWriteState
      = if (stepBody kp dtOut samplePeriod tStop s).1.t ≥ s.tWriteState then
          s.tWriteState + dtOut
        else s.tWriteState := rfl
  have hiK : (stepBody kp dtOut samplePeriod tStop s).1.iKp
      = if (stepBody kp dtOut samplePeriod tStop s).1.t ≥ s.tKp then s.iKp + 1
        else s.iKp := rfl
  have hKp : (stepBody kp dtOut samplePeriod tStop s).1.tKp
      = if (stepBody kp dtOut samplePeriod tStop s).1.t ≥ s.tKp then
          (if (stepBody kp dtOut samplePeriod tStop s).1.iKp ≥ kp.length then
            tStop + 1
          else kp.getD ((stepBody kp dtOut samplePeriod tStop s).1.iKp) 0)
        else s.tKp := rfl
  have hFil : (stepBody kp dtOut samplePeriod tStop s).1.tFilling
      = s.tFilling + 300 := rfl
  have hNxt : (stepBody kp dtOut samplePeriod tStop s).1.tNext
      = nextMin ((stepBody kp dtOut samplePeriod tStop s).1.tWriteSample)
          ((stepBody kp dtOut samplePeriod tStop s).1.tWriteState)
          ((stepBody kp dtOut samplePeriod tStop s).1.tKp)
          ((stepBody kp dtOut samplePeriod tStop s).1.tFilling) := rfl
  -- the new cursors never fall at or below the new clock value
  have hbSample : s.tNext < (stepBody kp dtOut samplePeriod tStop s).1.tWriteSample := by
    rw [hWSam, ht]
    unfold writeSamplesNext
    split <;> omega
  have hbState : s.tNext < (stepBody kp dtOut samplePeriod tStop s).1.tWriteState := by
    rw [hWSta, ht]
    split <;> omega
  have hbFil : s.tNext < (stepBody kp dtOut samplePeriod tStop s).1.tFilling := by
    rw [hFil]; omega
  have hbKp : s.tNext ≤ (stepBody kp dtOut samplePeriod tStop s).1.tKp
      ∧ (stepBody kp dtOut samplePeriod tStop s).1.tKp
        = kp.getD ((stepBody kp dtOut samplePeriod tStop s).1.iKp) (tStop + 1) := by
    rw [hKp, hiK, ht]
    by_cases hk : s.tNext ≥ s.tKp
    · have hkeq : s.tKp = s.tNext := le_antisymm hk h4
      rw [if_pos hk, if_pos hk]
      by_cases hlen : s.iKp + 1 ≥ kp.length
      · rw [if_pos hlen, List.getD_eq_default _ _ hlen]
        omega
      · have hi1 : s.iKp + 1 < kp.length := lt_of_not_ge hlen
        have hi0 : s.iKp < kp.length := Nat.lt_of_succ_lt hi1
        rw [if_neg hlen, List.getD_eq_getElem _ _ hi1, List.getD_eq_getElem _ _ hi1]
        refine ⟨?_, rfl⟩
        have hmono : kp[s.iKp] ≤ kp[s.iKp + 1] :=
          List.pairwise_iff_getElem.mp hsort s.iKp (s.iKp + 1) hi0 hi1
            (Nat.lt_succ_self _)
        have h6' : s.tKp = kp[s.iKp] := by
          rw [h6, List.getD_eq_getElem _ _ hi0]
        omega
    · rw [if_neg hk, if_neg hk]
      exact ⟨h4, h6⟩
  refine ⟨?_, ?_, ?_, ?_⟩
  · rw [hfSample, decide_eq_true_iff, ht]
    omega
  · rw [hfState, decide_eq_true_iff, ht]
    omega
  · rw [hfKp, decide_eq_true_iff, ht]
    omega
  · refine ⟨?_, ?_, ?_, ?_, ?_, hbKp.2⟩
    · rw [hNxt, ht]
      exact le_nextMin _ _ _ _ _ hbSample.le hbState.le hbKp.1 hbFil.le
    · rw [hNxt]
      exact (nextMin_le _ _ _ _).1
    · rw [hNxt]
      exact (nextMin_le _ _ _ _).2.1
    · rw [hNxt]
      exact (nextMin_le _ _ _ _).2.2.1
    · rw [hNxt]
      exact (nextMin_le _ _ _ _).2.2.2

/-- Claim C9 (witness): On the concrete test state: the sample stream (due
120) is serviced exactly at clock 120, the state-write (due 900) and
forcing (due 300) streams are not, and the invariant holds afterwards. -/
theorem C9_never_late_witness :
    ((stepBody [300] 900 900 1000 testSched).2.servicedSample = true
        ↔ testSched.tWriteSample = (stepBody [300] 900 900 1000 testSched).1.t)
    ∧ ((stepBody [300] 900 900 1000 testSched).2.servicedState = true
        ↔ testSched.tWriteState = (stepBody [300] 900 900 1000 testSched).1.t)
    ∧ ((stepBody [300] 900 900 1000 testSched).2.servicedKp = true
        ↔ testSched.tKp = (stepBody [300] 900 900 1000 testSched).1.t)
    ∧ SchedInv [300] 1000 (stepBody [300] 900 900 1000 testSched).1 :=
  C9_never_late [300] 900 900 1000 testSched
    (by unfold SchedInv; decide) (by simp) (by decide) (by decide) (by decide)

/-! ## C8 — stream servicing and due-time recomputation -/

/-- Claim C8 (counterexample): The claim says the spot-refresh stream's due
time "is not changed on iterations where it is not due".  On the concrete
test state the clock advances to 120, the spot-refresh cursor (300) is not
due, yet line 178 (`tFilling+=300;`, executed unconditionally at the top of
every iteration) moves it from 300 to 600. -/
theorem C8_spot_refresh_unconditional_bump :
    (stepBody [300] 900 900 1000 testSched).1.t = 120
    ∧ (stepBody [300] 900 900 1000 testSched).1.t < testSched.tFilling
    ∧ testSched.tFilling = 300
    ∧ (stepBody [300] 900 900 1000 testSched).1.tFilling = 600 := by
  refine ⟨by decide, by decide, by decide, by decide⟩

/-- Claim C8 (amended): Under the scheduling-loop invariant, in one iteration:
each conditioned stream whose due time equals the just-advanced current time
performs its action and recomputes its due time — forcing advances to the
next record's timestamp, or to `tStop + 1` (strictly after the run end) once
records are exhausted; state-write and sample-write add their fixed period —
and a conditioned stream that is not due is left untouched; the
spot-refresh cursor, however, gains its 300 s period unconditionally on
every iteration, due or not. -/
theorem C8_stream_recompute (kp : List Int) (dtOut samplePeriod tStop : Int)
    (s : Sched) (hinv : SchedInv kp tStop s) :
    (s.tWriteSample = (stepBody kp dtOut samplePeriod tStop s).1.t →
        (stepBody kp dtOut samplePeriod tStop s).2.servicedSample = true
        ∧ (stepBody kp dtOut samplePeriod tStop s).1.tWriteSample
          = writeSamplesNext s.tWriteSample samplePeriod)
    ∧ (s.tWriteSample ≠ (stepBody kp dtOut samplePeriod tStop s).1.t →
        (stepBody kp dtOut samplePeriod tStop s).2.servicedSample = false
        ∧ (stepBody kp dtOut samplePeriod tStop s).1.tWriteSample = s.tWriteSample)
    ∧ (s.tWriteState = (stepBody kp dtOut samplePeriod tStop s).1.t →
        (stepBody kp dtOut samplePeriod tStop s).2.servicedState = true
        ∧ (stepBody kp dtOut samplePeriod tStop s).1.tWriteState
          = s.tWriteState + dtOut)
    ∧ (s.tWriteState ≠ (stepBody kp dtOut samplePeriod tStop s).1.t →
        (stepBody kp dtOut samplePeriod tStop s).2.servicedState = false
        ∧ (stepBody kp dtOut samplePeriod tStop s).1.tWriteState = s.tWriteState)
    ∧ (s.tKp = (stepBody kp dtOut samplePeriod tStop s).1.t →
        (stepBody kp dtOut samplePeriod tStop s).2.servicedKp = true
        ∧ (stepBody kp dtOut samplePeriod tStop s).1.iKp = s.iKp + 1
        ∧ (kp.length ≤ s.iKp + 1 →
            (stepBody kp dtOut samplePeriod tStop s).1.tKp = tStop + 1)
        ∧ (s.iKp + 1 < kp.length →
            (stepBody kp dtOut samplePeriod tStop s).1.tKp = kp.getD (s.iKp + 1) 0))
    ∧ (s.tKp ≠ (stepBody kp dtOut samplePeriod tStop s).1.t →
        (stepBody kp dtOut samplePeriod tStop s).2.servicedKp = false
        ∧ (stepBody kp dtOut samplePeriod tStop s).1.iKp = s.iKp
        ∧ (stepBody kp dtOut samplePeriod tStop s).1.tKp = s.tKp)
    ∧ (stepBody kp dtOut samplePeriod tStop s).1.tFilling = s.tFilling + 300 := by
  obtain ⟨h1, h2, h3, h4, h5, h6⟩ := hinv
  have ht : (stepBody kp dtOut samplePeriod tStop s).1.t = s.tNext :=
    stepBody_t_eq kp dtOut samplePeriod tStop s h1
  have hfSample : (stepBody kp dtOut samplePeriod tStop s).2.servicedSample
      = decide ((stepBody kp dtOut samplePeriod tStop s).1.t ≥ s.tWriteSample) := rfl
  have hfState : (stepBody kp dtOut samplePeriod tStop s).2.servicedState
      = decide ((stepBody kp dtOut samplePeriod tStop s).1.t ≥ s.tWriteState) := rfl
  have hfKp : (stepBody kp dtOut samplePeriod tStop s).2.servicedKp
      = decide ((stepBody kp dtOut samplePeriod tStop s).1.t ≥ s.tKp) := rfl
  have hWSam : (stepBody kp dtOut samplePeriod tStop s).1.tWriteSample
      = if (stepBody kp dtOut samplePeriod tStop s).1.t ≥ s.tWriteSample then
          writeSamplesNext s.tWriteSample samplePeriod
        else s.tWriteSample := rfl
  have hWSta : (stepBody kp dtOut samplePeriod tStop s).1.tWriteState
      = if (stepBody kp dtOut samplePeriod tStop s).1.t ≥ s.tWriteState then
          s.tWriteState + dtOut
        else s.tWriteState := rfl
  have hiK : (stepBody kp dtOut samplePeriod tStop s).1.iKp
      = if (stepBody kp dtOut samplePeriod tStop s).1.t ≥ s.tKp then s.iKp + 1
        else s.iKp := rfl
  have hKp : (stepBody kp dtOut samplePeriod tStop s).1.tKp
      = if (stepBody kp dtOut samplePeriod tStop s).1.t ≥ s.tKp then
          (if (stepBody kp dtOut samplePeriod tStop s).1.iKp ≥ kp.length then
            tStop + 1
          else kp.getD ((stepBody kp dtOut samplePeriod tStop s).1.iKp) 0)
        else s.tKp := rfl
  refine ⟨?_, ?_, ?_, ?_, ?_, ?_, rfl⟩
  · intro h
    rw [ht] at h
    constructor
    · rw [hfSample, ht, decide_eq_true_iff]
      omega
    · rw [hWSam, ht, if_pos (by omega : s.tNext ≥ s.tWriteSample)]
  · intro h
    rw [ht] at h
    constructor
    · rw [hfSample, ht]
      exact decide_eq_false (by omega)
    · rw [hWSam, ht, if_neg (by omega : ¬ s.tNext ≥ s.tWriteSample)]
  · intro h
    rw [ht] at h
    constructor
    · rw [hfState, ht, decide_eq_true_iff]
      omega
    · rw [hWSta, ht, if_pos (by omega : s.tNext ≥ s.tWriteState)]
  · intro h
    rw [ht] at h
    constructor
    · rw [hfState, ht]
      exact decide_eq_false (by omega)
    · rw [hWSta, ht, if_neg (by omega : ¬ s.tNext ≥ s.tWriteState)]
  · intro h
    rw [ht] at h
    have hge : s.tNext ≥ s.tKp := by omega
    have hik : (stepBody kp dtOut samplePeriod tStop s).1.iKp = s.iKp + 1 := by
      rw [hiK, ht, if_pos hge]
    refine ⟨?_, hik, ?_, ?_⟩
    · rw [hfKp, ht, decide_eq_true_iff]
      omega
    · intro hlen
      rw [hKp, ht, if_pos hge, hik, if_pos hlen]
    · intro hlen
      rw [hKp, ht, if_pos hge, hik, if_neg (by omega : ¬ s.iKp + 1 ≥ kp.length)]
  · intro h
    rw [ht] at h
    have hlt : ¬ s.tNext ≥ s.tKp := by omega
    refine ⟨?_, ?_, ?_⟩
    · rw [hfKp, ht]
      exact decide_eq_false hlt
    · rw [hiK, ht, if_neg hlt]
    · rw [hKp, ht, if_neg hlt]

/-- Claim C8 (witness for the amended theorem): On the concrete test state:
the sample stream (due exactly at the new clock 120) is serviced and its
cursor gains its period; the state-write and forcing streams (not due) are
untouched; the spot-refresh cursor gains 300 regardless. -/
theorem C8_stream_recompute_witness :
    (stepBody [300] 900 900 1000 testSched).2.servicedSample = true
    ∧ (stepBody [300] 900 900 1000 testSched).1.tWriteSample
      = writeSamplesNext testSched.tWriteSample 900
    ∧ (stepBody [300] 900 900 1000 testSched).1.tWriteState = testSched.tWriteState
    ∧ (stepBody [300] 900 900 1000 testSched).1.tKp = testSched.tKp
    ∧ (stepBody [300] 900 900 1000 testSched).1.tFilling
      = testSched.tFilling + 300 := by
  have h := C8_stream_recompute [300] 900 900 1000 testSched (by unfold SchedInv; decide)
  exact ⟨(h.1 (by decide)).1, (h.1 (by decide)).2, (h.2.2.2.1 (by decide)).2,
    (h.2.2.2.2.2.1 (by decide)).2.2, h.2.2.2.2.2.2⟩

/-! ## C10 — the loop requires the spot-filling pointer to be configured -/

/-- Lines 129–139 of `runDGCPM.C`: `SPOTFILLING *f;` is assigned (via
`new SPOTFILLING(...)`) only inside `if(filling==1){...}`; otherwise it
remains uninitialized. -/
def setupSpotPointer (filling : Nat) (t0 : Int) : Option Int :=
  if filling = 1 then some t0 else none

/-- Claim C10: The loop body dereferences `f` (`f->setTime(t)`, line 177)
unconditionally on every iteration, but `f` is assigned only when the
`-filling` option set `filling == 1`: a run with `filling ≠ 1` hits the
uninitialized-pointer dereference on the first iteration (modelled as
`none`), so a precondition of the main loop is that the custom filling
stage has been configured, in which case the iteration proceeds normally. -/
theorem C10_loop_requires_spot_pointer (filling : Nat) (t0 : Int)
    (kp : List Int) (dtOut samplePeriod tStop : Int) (s : Sched)
    (hf : s.f = setupSpotPointer filling t0) :
    (filling ≠ 1 → step kp dtOut samplePeriod tStop s = none)
    ∧ (filling = 1 → step kp dtOut samplePeriod tStop s
        = some (stepBody kp dtOut samplePeriod tStop s)) := by
  constructor
  · intro h
    have hnone : s.f = none := by
      rw [hf]; unfold setupSpotPointer; rw [if_neg h]
    unfold step
    rw [hnone]
  · intro h
    have hsome : s.f = some t0 := by
      rw [hf]; unfold setupSpotPointer; rw [if_pos h]
    unfold step
    rw [hsome]

/-- The loop state of a run started without the `-filling` option. -/
def testSchedNoF : Sched := { testSched with f := setupSpotPointer 0 0 }

/-- Claim C10 (witness): With `filling = 0` the very first loop iteration hits
the unassigned pointer: the step is undefined behaviour (`none`). -/
theorem C10_loop_requires_spot_pointer_witness :
    step [300] 900 900 1000 testSchedNoF = none := by
  have h := C10_loop_requires_spot_pointer 0 0 [300] 900 900 1000 testSchedNoF rfl
  exact h.1 (by decide)

end Spotfilling
